import Mathlib

/-
  Verification of the recommendation cache + single-flight generation + prefetch
  core of the `sannsvar` Stremio addon.

  The development shallowly embeds the TypeScript source:
  - `src/db/schema.ts` (table rows, `CACHE_TTL`),
  - `src/db/CacheRepository.ts` (`hashHistory`, `isValid`, `getHistory`,
    `setHistory`, `getRecommendations`, `setRecommendations`),
  - `src/handlers/catalog.ts` (`FIRST_BATCH_SIZE`, `SECOND_BATCH_SIZE`,
    `BATCH_SIZE`, `PREFETCH_THRESHOLD`, `getBatchSize`, `generateBatch`,
    `getWatchHistory`, `getCatalog`, `recommendationsToMetas`,
    `createFallbackCatalog`, the `generationInProgress` registry),
  - `src/handlers/similar.ts` (`getSimilar`),
  - `src/manifest.ts` (`PAGE_SIZE`).

  Conventions of the embedding:
  - SQLite rows store JSON strings in the source; rows written by this core are
    produced by `JSON.stringify` of typed values and parsed back by `JSON.parse`,
    so rows are embedded as typed values (the serialization round-trips; the
    `catch { return null }` branches of the repository are unreachable for rows
    the core itself wrote). Columns the core never reads back
    (`trakt_username`, `item_count`, `created_at`) are omitted.
  - The SHA-256 primitive from node's `crypto` is an external library call; the
    embedding is parameterized by an arbitrary function
    `hash : String → String` standing for
    `createHash('sha256').update(data).digest('hex').slice(0, 16)`.
    Everything proved holds for every such function.
  - External collaborators (the Trakt history provider, the pluggable AI
    generation backend) are inputs: a call's outcome is passed in as an
    `Except` value, `.error` standing for a thrown
    `TraktServiceError` / `AIProviderError` with the given message.
  - Unix timestamps (`Math.floor(Date.now() / 1000)`) and `Date.getTime()`
    values are embedded as `Int`, matching JavaScript's signed arithmetic in
    `now - updatedAt < ttl`.
-/

namespace Sannsvar

/-- One entry of a user's Trakt watch history (src/types.ts, `WatchHistoryItem`).
`watchedAtMs` is `watchedAt.getTime()`, the only part of `watchedAt` the cache
core reads (in `hashHistory`). Fields the core never reads (`type`, `genres`,
`rating`, `runtime`, `certification`) are carried opaquely by `title`/`year`
level data and omitted here. -/
structure WatchHistoryItem where
  imdbId : String
  title : String
  year : Int
  watchedAtMs : Int
  deriving DecidableEq, Repr

/-- An AI-generated recommendation (src/types.ts, `Recommendation`). -/
structure Recommendation where
  imdbId : String
  title : String
  reason : String
  deriving DecidableEq, Repr

/-- A Stremio catalog entry (src/types.ts, `StremioMeta`), restricted to the
four fields the catalog and similar handlers populate. -/
structure StremioMeta where
  id : String
  type : String
  name : String
  description : String
  deriving DecidableEq, Repr

/-- Response of the pluggable generation backend
(src/types.ts, `AIRecommendationResponse`). -/
structure ProviderResponse where
  recommendations : List Recommendation
  analysis : Option String
  deriving DecidableEq, Repr

/-! ## Constants (src/handlers/catalog.ts lines 92–103, src/manifest.ts) -/

/-- First batch: fastest possible initial load (catalog.ts line 94). -/
def FIRST_BATCH_SIZE : Nat := 15

/-- Second batch: fetched in background while the user browses (line 97). -/
def SECOND_BATCH_SIZE : Nat := 45

/-- Subsequent batches (line 100). -/
def BATCH_SIZE : Nat := 100

/-- Pre-fetch when this many items remain in cache (line 103). -/
def PREFETCH_THRESHOLD : Nat := 30

/-- Items per page (src/manifest.ts, `PAGE_SIZE`). -/
def PAGE_SIZE : Nat := 15

/-- Cache TTLs in seconds (src/db/schema.ts, `CACHE_TTL`). -/
structure CacheTTLConfig where
  history : Int
  recommendations : Int

/-- `CACHE_TTL = { history: 60*60, recommendations: 60*60*4 }`. -/
def CACHE_TTL : CacheTTLConfig := { history := 60 * 60, recommendations := 60 * 60 * 4 }

/-! ## Durable store rows (src/db/schema.ts) -/

/-- A row of `history_cache`, with `data` already parsed. -/
structure HistoryCacheRow where
  data : List WatchHistoryItem
  updated_at : Int
  deriving DecidableEq, Repr

/-- A row of `recommendation_cache`, with `data` already parsed. -/
structure RecommendationCacheRow where
  data : List Recommendation
  history_hash : String
  updated_at : Int
  deriving DecidableEq, Repr

/-- The two tables the core touches, keyed by their `user_id` primary-key
column (which the handlers feed composite strings into). -/
structure CacheDB where
  history_cache : String → Option HistoryCacheRow
  recommendation_cache : String → Option RecommendationCacheRow

/-! ## CacheRepository (src/db/CacheRepository.ts) -/

/-- The serialization the repository digests:
`history.map((h) => h.imdbId + ':' + h.watchedAt.getTime()).join('|')`
(CacheRepository.ts line 27). -/
def histSerialize (history : List WatchHistoryItem) : String :=
  String.intercalate "|" (history.map (fun h => h.imdbId ++ ":" ++ toString h.watchedAtMs))

/-- `hashHistory` (CacheRepository.ts lines 26–29): the SHA-256-based digest of
the ordered (content identifier, watch timestamp) pairs. `hash` is the crypto
primitive. -/
def hashHistory (hash : String → String) (history : List WatchHistoryItem) : String :=
  hash (histSerialize history)

/-- `isValid` (CacheRepository.ts lines 34–37): `now - updatedAt < ttlSeconds`. -/
def isValid (now updatedAt ttlSeconds : Int) : Bool :=
  decide (now - updatedAt < ttlSeconds)

/-- `getHistory` (CacheRepository.ts lines 44–75): `null` when the row is
missing or expired, otherwise the parsed snapshot. -/
def CacheDB.getHistory (db : CacheDB) (now : Int) (userId : String) :
    Option (List WatchHistoryItem) :=
  match db.history_cache userId with
  | none => none
  | some row =>
    if isValid now row.updated_at CACHE_TTL.history then some row.data else none

/-- `setHistory` (CacheRepository.ts lines 80–95): upsert of the single row. -/
def CacheDB.setHistory (db : CacheDB) (now : Int) (userId : String)
    (history : List WatchHistoryItem) : CacheDB :=
  { db with history_cache := fun k =>
      if k = userId then some { data := history, updated_at := now }
      else db.history_cache k }

/-- `getRecommendations` (CacheRepository.ts lines 113–134): `null` when the
row is missing, expired, or its `history_hash` differs from the digest of the
current history; otherwise the stored list.  The source's early returns are
flattened into nested conditionals. -/
def CacheDB.getRecommendations (hash : String → String) (db : CacheDB) (now : Int)
    (userId : String) (currentHistory : List WatchHistoryItem) :
    Option (List Recommendation) :=
  match db.recommendation_cache userId with
  | none => none
  | some row =>
    if isValid now row.updated_at CACHE_TTL.recommendations then
      if row.history_hash = hashHistory hash currentHistory then some row.data
      else none
    else none

/-- `setRecommendations` (CacheRepository.ts lines 139–158): upsert of the
single row together with the digest of the history that produced it. -/
def CacheDB.setRecommendations (hash : String → String) (db : CacheDB) (now : Int)
    (userId : String) (recommendations : List Recommendation)
    (history : List WatchHistoryItem) : CacheDB :=
  { db with recommendation_cache := fun k =>
      if k = userId then
        some { data := recommendations,
               history_hash := hashHistory hash history,
               updated_at := now }
      else db.recommendation_cache k }

/-! ## Catalog handler (src/handlers/catalog.ts) -/

/-- `Array.prototype.slice(start, stop)` on an in-range window, as used by
`getCatalog` (`allRecommendations.slice(startIndex, endIndex)`). -/
def sliceJS (l : List α) (start stop : Nat) : List α :=
  (l.drop start).take (stop - start)

/-- Result of `getBatchSize` (catalog.ts lines 244–252). -/
structure BatchChoice where
  size : Nat
  label : String
  deriving DecidableEq, Repr

/-- `getBatchSize` (catalog.ts lines 244–252): 15 → 45 → 100 tiering keyed on
how many items are already cached. -/
def getBatchSize (existingCount : Nat) : BatchChoice :=
  if existingCount = 0 then { size := FIRST_BATCH_SIZE, label := "initial (15)" }
  else if existingCount ≤ FIRST_BATCH_SIZE then { size := SECOND_BATCH_SIZE, label := "second (45)" }
  else { size := BATCH_SIZE, label := "standard (100)" }

/-- `recommendationsToMetas` (catalog.ts lines 359–371). -/
def recommendationsToMetas (recommendations : List Recommendation)
    (contentType : String) : List StremioMeta :=
  recommendations.map fun rec =>
    { id := rec.imdbId, type := contentType, name := rec.title, description := rec.reason }

/-- `createFallbackCatalog` (catalog.ts lines 376–385): the single placeholder
entry used for every error/empty-configuration page. -/
def createFallbackCatalog (message : String) : List StremioMeta :=
  [{ id := "error", type := "movie", name := "Configuration Required", description := message }]

/-- The cache key of `getCatalog` (catalog.ts line 145):
`` `${userId}:${categoryId}` ``. -/
def catalogCacheKey (userId categoryId : String) : String :=
  userId ++ ":" ++ categoryId

/-- The exclusion set built by `generateBatch` (catalog.ts line 285):
`existingRecs.map((r) => r.imdbId)`. -/
def excludeIdsOf (existingRecs : List Recommendation) : List String :=
  existingRecs.map (fun r => r.imdbId)

/-- The defensive second filter of `generateBatch` (catalog.ts lines 295–297):
`response.recommendations.filter((r) => !excludeIds.includes(r.imdbId))`. -/
def filterNewRecs (existingRecs responseRecs : List Recommendation) :
    List Recommendation :=
  responseRecs.filter (fun r => !((excludeIdsOf existingRecs).contains r.imdbId))

/-- One expansion's accumulation (catalog.ts line 300):
`allRecs = [...existingRecs, ...newRecs]` with `newRecs` the filtered response. -/
def expandOnce (existingRecs responseRecs : List Recommendation) :
    List Recommendation :=
  existingRecs ++ filterNewRecs existingRecs responseRecs

/-- A sequence of expansions on one key: each backend response is filtered
against and appended to the accumulated list, as in successive `generateBatch`
calls. -/
def expandAll (init : List Recommendation) (responses : List (List Recommendation)) :
    List Recommendation :=
  responses.foldl expandOnce init

/-- The sequential effect of a successful `generateBatch` body
(catalog.ts lines 278–318): filter the response against the exclusion set,
persist the merged list, return the new items.  Note the persistence call on
line 301 is `cache.setRecommendations(userId, allRecs, history)` — the key is
`userId` alone, not the `` `${userId}:${categoryId}` `` key the caller uses.
The chained call on line 313 re-enters `generateBatch` while the
`generationInProgress` entry for the key is still present (the `finally` on
line 326 runs only after the promise resolves), so it coalesces with the
current call and has no further effect; the event-loop model below derives
this, so it contributes no store write here. -/
def generateBatchSuccess (hash : String → String) (db : CacheDB) (now : Int)
    (userId categoryId : String) (history : List WatchHistoryItem)
    (existingRecs : List Recommendation) (response : ProviderResponse) :
    List Recommendation × CacheDB :=
  let newRecs := filterNewRecs existingRecs response.recommendations
  let allRecs := expandOnce existingRecs response.recommendations
  (newRecs, db.setRecommendations hash now userId allRecs history)

/-- The sequential effect of `generateBatch` (catalog.ts lines 258–328): a
thrown `AIProviderError` propagates, a successful backend response is filtered
and persisted. -/
def generateBatchStep (hash : String → String) (db : CacheDB) (now : Int)
    (userId categoryId : String) (history : List WatchHistoryItem)
    (existingRecs : List Recommendation)
    (response : Except String ProviderResponse) :
    Except String (List Recommendation × CacheDB) :=
  match response with
  | .error e => .error e
  | .ok resp => .ok (generateBatchSuccess hash db now userId categoryId history existingRecs resp)

/-- `getWatchHistory` (catalog.ts lines 211–238): the cached snapshot when the
repository returns one, otherwise a fetch from Trakt whose result is persisted;
a thrown `TraktServiceError` propagates and nothing is written.  (The
`getUserProfile().catch(() => null)` call only feeds the unread
`trakt_username` column and is omitted.) -/
def getWatchHistory (db : CacheDB) (now : Int) (userId : String)
    (traktFetch : Except String (List WatchHistoryItem)) :
    Except String (List WatchHistoryItem × CacheDB) :=
  match db.getHistory now userId with
  | some history => .ok (history, db)
  | none =>
    match traktFetch with
    | .error e => .error e
    | .ok history => .ok (history, db.setHistory now userId history)

/-- `getCatalog` (catalog.ts lines 129–206) as a function of the request, the
store, and the outcomes of the two external calls it may make.
`traktConfigured` is the guard on lines 136–139; `traktFetch` is the outcome
of `traktService.getWatchHistory(50)` when consulted; `response` the outcome
of the synchronous `generateBatch`'s backend call when consulted.  The
`triggerPrefetch` on line 184 is fire-and-forget (its effects land after the
request); the returned page and store state model the synchronous request.
The catch block (lines 193–205) maps a `TraktServiceError` to a
`Trakt error:` fallback page and an `AIProviderError` to an `AI error:`
fallback page. -/
def getCatalog (hash : String → String) (db : CacheDB) (now : Int)
    (traktConfigured : Bool) (userId : String) (contentType categoryId : String)
    (skip : Nat) (traktFetch : Except String (List WatchHistoryItem))
    (response : Except String ProviderResponse) :
    List StremioMeta × CacheDB :=
  if !traktConfigured then (createFallbackCatalog "Trakt credentials not configured", db)
  else
    let cacheKey := catalogCacheKey userId categoryId
    match getWatchHistory db now userId traktFetch with
    | .error e => (createFallbackCatalog ("Trakt error: " ++ e), db)
    | .ok (history, db1) =>
      if history.length = 0 then
        (createFallbackCatalog "No watch history found. Watch some content on Trakt first!", db1)
      else
        let allRecommendations := (db1.getRecommendations hash now cacheKey history).getD []
        let startIndex := skip
        let endIndex := skip + PAGE_SIZE
        if endIndex > allRecommendations.length then
          match generateBatchStep hash db1 now userId categoryId history allRecommendations response with
          | .error e => (createFallbackCatalog ("AI error: " ++ e), db1)
          | .ok (newRecs, db2) =>
            let allRecs := allRecommendations ++ newRecs
            let db3 := db2.setRecommendations hash now cacheKey allRecs history
            (recommendationsToMetas (sliceJS allRecs startIndex endIndex) contentType, db3)
        else
          (recommendationsToMetas (sliceJS allRecommendations startIndex endIndex) contentType, db1)

/-! ## Similar handler (src/handlers/similar.ts) -/

/-- The cache key of `getSimilar` (similar.ts line 101):
`` `similar:${sourceImdbId}` ``. -/
def similarCacheKey (sourceImdbId : String) : String :=
  "similar:" ++ sourceImdbId

/-- `getSimilar` (similar.ts lines 94–141) as a function of the store and the
backend outcome.  The handler reads and writes the recommendation cache under
`similar:<sourceImdbId>` with the empty history list; any thrown error
(provider failure, missing credentials) is caught and yields an empty page. -/
def getSimilar (hash : String → String) (db : CacheDB) (now : Int)
    (sourceImdbId sourceTitle contentType : String)
    (response : Except String ProviderResponse) :
    List StremioMeta × CacheDB :=
  let cacheKey := similarCacheKey sourceImdbId
  let cached := db.getRecommendations hash now cacheKey []
  match cached with
  | some l =>
    if l.length > 0 then (recommendationsToMetas l contentType, db)
    else
      match response with
      | .error _ => ([], db)
      | .ok resp =>
        (recommendationsToMetas resp.recommendations contentType,
         db.setRecommendations hash now cacheKey resp.recommendations [])
  | none =>
    match response with
    | .error _ => ([], db)
    | .ok resp =>
      (recommendationsToMetas resp.recommendations contentType,
       db.setRecommendations hash now cacheKey resp.recommendations [])

/-! ## Event-loop model of the in-flight registry (catalog.ts lines 118–354)

Node.js runs the handler on a single-threaded event loop: code between two
`await` points executes atomically.  In `generateBatch` the registry lookup
(line 269), the start of the async IIFE — which runs synchronously up to its
first `await`, dispatching the backend call `provider.getRecommendations(...)`
on line 287 — and the registry insert (line 321) all lie in one such atomic
segment: there is no `await` between the lookup and the insert.  A caller's
entry into `generateBatch` is therefore modelled as one atomic step.
Promises are identified by the order in which they are created; each freshly
created promise dispatches exactly one backend call inside the same segment. -/

/-- The shared mutable state: the `generationInProgress` map (key → the
in-flight promise's identifier), the next fresh promise identifier, and the
log of backend invocations `(key, promise id)` in dispatch order. -/
structure SFState where
  generationInProgress : String → Option Nat
  nextPromiseId : Nat
  dispatched : List (String × Nat)

/-- The empty registry at process start (catalog.ts line 119:
`new Map<string, Promise<Recommendation[]>>()`). -/
def initSF : SFState :=
  { generationInProgress := fun _ => none, nextPromiseId := 0, dispatched := [] }

/-- One caller's atomic entry into `generateBatch` (catalog.ts lines 269–321):
if the key is registered, the caller awaits the existing promise (lines
270–273) and the state is unchanged; otherwise a fresh promise is created, the
backend call is dispatched (line 287) and the promise is registered under the
key (line 321).  Returns the promise identifier this caller awaits. -/
def callerEnter (s : SFState) (key : String) : SFState × Nat :=
  match s.generationInProgress key with
  | some p => (s, p)
  | none =>
    ({ generationInProgress := fun k =>
         if k = key then some s.nextPromiseId else s.generationInProgress k,
       nextPromiseId := s.nextPromiseId + 1,
       dispatched := s.dispatched ++ [(key, s.nextPromiseId)] },
     s.nextPromiseId)

/-- The `finally` of `generateBatch` (line 326):
`generationInProgress.delete(cacheKey)`, run once the awaited promise has
resolved. -/
def callerCleanup (s : SFState) (key : String) : SFState :=
  { s with generationInProgress := fun k =>
      if k = key then none else s.generationInProgress k }

/-- `n` concurrent callers entering `generateBatch` for the same key, i.e. all
registry lookups happen before any call completes (no `callerCleanup` is
interleaved).  Returns the final state and the promise each caller awaits. -/
def runEnters : SFState → String → Nat → SFState × List Nat
  | s, _, 0 => (s, [])
  | s, key, n + 1 =>
    let (s1, p) := callerEnter s key
    let (s2, ps) := runEnters s1 key n
    (s2, p :: ps)

/-- The chained-prefetch trigger threshold (catalog.ts line 310):
`FIRST_BATCH_SIZE * 0.8`, which the IEEE-754 evaluation makes exactly `12`. -/
def CHAINED_FILL_THRESHOLD : Nat := FIRST_BATCH_SIZE * 4 / 5

/-- The chained-prefetch guard (catalog.ts line 310):
`isFirstBatch && newRecs.length >= FIRST_BATCH_SIZE * 0.8`. -/
def chainedTriggerFires (isFirstBatch : Bool) (newCount : Nat) : Bool :=
  isFirstBatch && decide (CHAINED_FILL_THRESHOLD ≤ newCount)

/-- The atomic segments of one `generateBatch` call's lifetime, in program
order. -/
inductive GenEvent where
  | enter
    -- lines 269–321: registry lookup .. backend dispatch .. registry insert
  | resume (isFirstBatch : Bool) (newCount : Nat)
    -- lines 294–318: the IIFE resumes when the backend responds with
    -- `newCount` surviving items; when the guard on line 310 holds it
    -- re-enters `generateBatch` (line 313) *inside this same segment* —
    -- the promise has not resolved yet, so the `finally` (line 326) of the
    -- outer call has not run and the registry entry is still present
  | cleanup
    -- line 326: the `finally` deletes the registry entry, after the promise
    -- has resolved

/-- Effect of one atomic segment on the shared state. -/
def genStep (key : String) (s : SFState) : GenEvent → SFState
  | .enter => (callerEnter s key).1
  | .resume isFirstBatch newCount =>
    if chainedTriggerFires isFirstBatch newCount then (callerEnter s key).1 else s
  | .cleanup => callerCleanup s key

/-- Run a sequence of atomic segments. -/
def genRun (key : String) (s : SFState) (events : List GenEvent) : SFState :=
  events.foldl (genStep key) s

/-- The program-order trace of the very first expansion of a key when no other
caller interferes and the backend responds with `newCount` surviving items:
the caller enters, the backend responds and the IIFE resumes (running the
chained trigger of line 313 before the IIFE returns), and only then does the
`finally` delete the registry entry. -/
def firstExpansionEvents (newCount : Nat) : List GenEvent :=
  [.enter, .resume true newCount, .cleanup]

/-! ## Concrete fixtures for witnesses and counterexamples -/

/-- A concrete stand-in for the SHA-256 primitive in closed evaluations: the
identity on the serialized history (any `hash` works in the theorems; witnesses
pick this one so the kernel can evaluate). -/
def idHash : String → String := fun s => s

/-- A concrete watch-history entry. -/
def sampleItem : WatchHistoryItem :=
  { imdbId := "tt0111161", title := "The Shawshank Redemption", year := 1994,
    watchedAtMs := 1700000000000 }

/-- A concrete recommendation. -/
def recA : Recommendation :=
  { imdbId := "tt0000001", title := "Alpha", reason := "similar themes" }

/-- A second concrete recommendation with a distinct identifier. -/
def recB : Recommendation :=
  { imdbId := "tt0000002", title := "Beta", reason := "same director" }

/-- The store at process start: both tables empty. -/
def emptyDB : CacheDB :=
  { history_cache := fun _ => none, recommendation_cache := fun _ => none }

/-- A store holding, for user `"user1"`, a fresh history snapshot (written at
time 1000) and two cached recommendations for category `"top"` generated from
that snapshot. -/
def dbCachedRecs : CacheDB :=
  { history_cache := fun k =>
      if k = "user1" then some { data := [sampleItem], updated_at := 1000 } else none,
    recommendation_cache := fun k =>
      if k = catalogCacheKey "user1" "top" then
        some { data := [recA, recB],
               history_hash := hashHistory idHash [sampleItem],
               updated_at := 1000 }
      else none }

/-- A store holding only a stale history snapshot for `"user1"`: written at
time 0, so at `now = 3600` its age equals the one-hour history TTL and
`isValid` fails. -/
def dbStaleHistory : CacheDB :=
  { history_cache := fun k =>
      if k = "user1" then some { data := [sampleItem], updated_at := 0 } else none,
    recommendation_cache := fun _ => none }

/-- A store holding only a fresh history snapshot for `"user1"` (no cached
recommendations). -/
def dbFreshHistoryOnly : CacheDB :=
  { history_cache := fun k =>
      if k = "user1" then some { data := [sampleItem], updated_at := 1000 } else none,
    recommendation_cache := fun _ => none }

/-- A store holding a fresh but empty history snapshot for `"user1"`. -/
def dbEmptyHistory : CacheDB :=
  { history_cache := fun k =>
      if k = "user1" then some { data := [], updated_at := 1000 } else none,
    recommendation_cache := fun _ => none }

/-- A store holding one shared similar-to row, as written by a previous
`getSimilar` for source title `"tt0068646"`: empty-history fingerprint,
written at time 500. -/
def dbSharedSimilar : CacheDB :=
  { history_cache := fun _ => none,
    recommendation_cache := fun k =>
      if k = similarCacheKey "tt0068646" then
        some { data := [recA], history_hash := hashHistory idHash [], updated_at := 500 }
      else none }

/-! ## C4 — batch tiering -/

/-- C4 (counterexample): the claimed strictly increasing chain
`getBatchSize 0 < getBatchSize (FIRST_BATCH_SIZE+1) < getBatchSize
(FIRST_BATCH_SIZE+SECOND_BATCH_SIZE+1)`, i.e. at 0, 16 and 61, is false:
`getBatchSize 16` already falls in the large tier (16 > 15), so the chain is
`15 < 100 < 100` and the second comparison fails. -/
theorem getBatchSize_claimed_chain_false :
    ¬ ((getBatchSize 0).size < (getBatchSize (FIRST_BATCH_SIZE + 1)).size ∧
       (getBatchSize (FIRST_BATCH_SIZE + 1)).size <
         (getBatchSize (FIRST_BATCH_SIZE + SECOND_BATCH_SIZE + 1)).size) := by
  decide

/-- C4 (amended): the tier sizes are strictly increasing when the middle tier
is sampled inside its actual range `0 < existingCount ≤ FIRST_BATCH_SIZE`,
e.g. at `existingCount = FIRST_BATCH_SIZE`:
`getBatchSize 0 = 15 < getBatchSize 15 = 45 < getBatchSize 61 = 100`. -/
theorem getBatchSize_strictly_increasing_chain :
    (getBatchSize 0).size < (getBatchSize FIRST_BATCH_SIZE).size ∧
    (getBatchSize FIRST_BATCH_SIZE).size <
      (getBatchSize (FIRST_BATCH_SIZE + SECOND_BATCH_SIZE + 1)).size := by
  decide

/-! ## C5 — cache usability -/

/-- C5: `getRecommendations` returns the stored list exactly when the row
exists, `now - updated_at` is strictly below the recommendation TTL, and the
stored fingerprint equals the digest of the current history's ordered
(content identifier, watch timestamp) pairs (`hashHistory`); in every other
case it returns `none`.  Holds for every digest primitive `hash`. -/
theorem getRecommendations_usable_iff (hash : String → String) (db : CacheDB)
    (now : Int) (key : String) (hist : List WatchHistoryItem)
    (l : List Recommendation) :
    db.getRecommendations hash now key hist = some l ↔
      ∃ row, db.recommendation_cache key = some row ∧ l = row.data ∧
        now - row.updated_at < CACHE_TTL.recommendations ∧
        row.history_hash = hashHistory hash hist := by
  unfold CacheDB.getRecommendations
  cases h : db.recommendation_cache key with
  | none => simp
  | some row =>
    by_cases hv : now - row.updated_at < CACHE_TTL.recommendations
    · by_cases hh : row.history_hash = hashHistory hash hist
      · simp [isValid, hv, hh, eq_comm]
      · simp [isValid, hv, hh]
    · simp [isValid, hv]

/-! ## C1 — single-flight coalescing -/

/-- When the key is already registered, entering `generateBatch` changes
nothing and hands the caller the in-flight promise (catalog.ts lines 269–273). -/
theorem callerEnter_hit {s : SFState} {key : String} {p : Nat}
    (h : s.generationInProgress key = some p) : callerEnter s key = (s, p) := by
  unfold callerEnter
  rw [h]

/-- A registered key stays registered: every further concurrent entry attaches
to the same promise and the state never changes. -/
theorem runEnters_of_inFlight {s : SFState} {key : String} {p : Nat}
    (h : s.generationInProgress key = some p) (n : Nat) :
    runEnters s key n = (s, List.replicate n p) := by
  induction n with
  | zero => rfl
  | succ m ih =>
    unfold runEnters
    rw [callerEnter_hit h]
    simp [ih, List.replicate_succ]

/-- C1: single-flight coalescing.  For every number `n ≥ 1` of concurrent
callers of `generateBatch` with the same key (all entering before any
completion removes the registry entry), starting from any state in which the
key is not in flight: exactly one backend call is dispatched (the dispatch log
grows by the single entry `(key, fresh promise)`), and every one of the `n`
callers awaits that same promise — hence all receive the same result object,
the value that promise resolves with. -/
theorem generateBatch_single_flight (s0 : SFState) (key : String) (n : Nat)
    (hfree : s0.generationInProgress key = none) (hn : 1 ≤ n) :
    (runEnters s0 key n).1.dispatched = s0.dispatched ++ [(key, s0.nextPromiseId)] ∧
    (runEnters s0 key n).2 = List.replicate n s0.nextPromiseId := by
  obtain ⟨m, rfl⟩ : ∃ m, n = m + 1 := ⟨n - 1, (Nat.succ_pred_eq_of_pos hn).symm⟩
  have hreg : (callerEnter s0 key).1.generationInProgress key =
      some s0.nextPromiseId := by
    unfold callerEnter
    rw [hfree]
    simp
  have hfst : (callerEnter s0 key).1.dispatched =
      s0.dispatched ++ [(key, s0.nextPromiseId)] := by
    unfold callerEnter
    rw [hfree]
  have hsnd : (callerEnter s0 key).2 = s0.nextPromiseId := by
    unfold callerEnter
    rw [hfree]
  rcases hC : callerEnter s0 key with ⟨s1, p⟩
  rw [hC] at hreg hfst hsnd
  simp only [Prod.fst, Prod.snd] at hreg hfst hsnd
  simp only [runEnters, hC, runEnters_of_inFlight hreg m]
  exact ⟨hfst, by simp [hsnd, List.replicate_succ]⟩

/-- C1 (witness): three concurrent callers for one key from the initial empty
registry — one backend dispatch, all three awaiting promise 0. -/
theorem generateBatch_single_flight_witness :
    (runEnters initSF "user1:top:generate" 3).1.dispatched =
      [("user1:top:generate", 0)] ∧
    (runEnters initSF "user1:top:generate" 3).2 = List.replicate 3 0 := by
  have h := generateBatch_single_flight initSF "user1:top:generate" 3 rfl (by decide)
  simpa using h

/-! ## C3 — chained prefetch -/

/-- C3: the chained prefetch never dispatches a second backend call.  Trace of
the first expansion of a fresh key with a full first batch (15 surviving
items, well above the 80% threshold of 12): the trigger guard of
catalog.ts line 310 evaluates to true, yet over the whole program-order trace
— enter, backend response/IIFE resumption including the line-313 re-entry,
`finally` cleanup — exactly one backend call is ever dispatched.  The
re-entry runs before the first call's `finally` has removed the registry
entry, so it coalesces with the (already complete, not yet resolved) first
call instead of dispatching the promised second-tier batch; the code's own
comment and log line (lines 309–311) say a background fetch of 45 more is
being triggered, and the spec requires a second, independent backend call,
i.e. a dispatch log of length 2. -/
theorem chained_prefetch_dispatches_nothing :
    chainedTriggerFires true FIRST_BATCH_SIZE = true ∧
    (genRun "user1:top:generate" initSF
        (firstExpansionEvents FIRST_BATCH_SIZE)).dispatched.length = 1 ∧
    (genRun "user1:top:generate" initSF
        (firstExpansionEvents FIRST_BATCH_SIZE)).generationInProgress
        "user1:top:generate" = none := by
  refine ⟨by decide, by decide, by decide⟩

/-! ## C2 — persisted write key of an expansion -/

/-- C2: evaluation of `generateBatch`'s persistence at the failing input.  On
catalog.ts line 301 the expansion's merged list is written with
`cache.setRecommendations(userId, allRecs, history)` — keyed by `userId`
alone — although the handler's combined key (line 145) is
`` `${userId}:${categoryId}` `` and `categoryId` is threaded into
`generateBatch` for exactly this purpose.  Expanding category `"top"` for
`"user1"` leaves the `(userId, categoryId)` row `"user1:top"` untouched and
instead upserts the row keyed `"user1"`, which no category read ever
consults. -/
theorem generateBatch_persists_under_userId_only :
    ((generateBatchSuccess idHash emptyDB 0 "user1" "top" [sampleItem] []
        { recommendations := [recA], analysis := none }).2.recommendation_cache
        (catalogCacheKey "user1" "top") = none) ∧
    ((generateBatchSuccess idHash emptyDB 0 "user1" "top" [sampleItem] []
        { recommendations := [recA], analysis := none }).2.recommendation_cache
        "user1" =
      some { data := [recA], history_hash := hashHistory idHash [sampleItem],
             updated_at := 0 }) := by
  exact ⟨rfl, rfl⟩

/-! ## C7 — no duplicate items -/

/-- C7 (counterexample): the defensive filter only excludes identifiers that
were already accumulated before the expansion; a single backend response that
repeats an identifier internally survives it, so one expansion of an empty
list with the response `[recA, recA]` accumulates the identifier
`"tt0000001"` twice. -/
theorem expandAll_duplicate_counterexample :
    ¬ ((expandAll [] [[recA, recA]]).map (fun r => r.imdbId)).Nodup := by
  decide

/-- In this Mathlib, `List.contains` is definitionally `List.elem`; bridge to
membership. -/
theorem contains_eq_true_iff {l : List String} {a : String} :
    l.contains a = true ↔ a ∈ l := by
  simp [List.contains]

/-- One expansion preserves distinctness of the accumulated identifiers,
provided the backend response repeats no identifier internally: the filtered
new items avoid every accumulated identifier, and filtering preserves the
response's own distinctness. -/
theorem expandOnce_nodup {existing resp : List Recommendation}
    (h1 : (existing.map (fun r => r.imdbId)).Nodup)
    (h2 : (resp.map (fun r => r.imdbId)).Nodup) :
    ((expandOnce existing resp).map (fun r => r.imdbId)).Nodup := by
  unfold expandOnce filterNewRecs
  rw [List.map_append, List.nodup_append]
  refine ⟨h1, ?_, ?_⟩
  · exact h2.sublist ((List.filter_sublist resp).map _)
  · intro a ha hb
    rcases List.mem_map.mp hb with ⟨r, hr, rfl⟩
    rcases List.mem_filter.mp hr with ⟨_, hpr⟩
    rw [Bool.not_eq_eq_eq_not, Bool.not_true] at hpr
    have hmem : r.imdbId ∈ excludeIdsOf existing := by
      simpa [excludeIdsOf] using ha
    have hcontra := contains_eq_true_iff.mpr hmem
    rw [hpr] at hcontra
    exact Bool.false_ne_true hcontra

/-- C7 (amended): for every sequence of expansions on one key, if the
accumulated list starts with distinct content identifiers and each backend
response is internally free of repeats, the accumulated list contains no
repeated content identifiers — in particular the defensive filter absorbs
responses that ignore the exclusion list.  (As the counterexample shows, a
response repeating an identifier internally defeats the filter, so the
per-response distinctness hypothesis is necessary.) -/
theorem expandAll_nodup (init : List Recommendation)
    (responses : List (List Recommendation))
    (h0 : (init.map (fun r => r.imdbId)).Nodup)
    (hr : ∀ rs ∈ responses, (rs.map (fun r => r.imdbId)).Nodup) :
    ((expandAll init responses).map (fun r => r.imdbId)).Nodup := by
  induction responses generalizing init with
  | nil => exact h0
  | cons rs rest ih =>
    have hstep := expandOnce_nodup h0 (hr rs (List.mem_cons_self rs rest))
    exact ih (expandOnce init rs) hstep (fun l hl => hr l (List.mem_cons_of_mem rs hl))

/-- C7 (witness): two duplicate-free responses, the second repeating an
already-accumulated identifier, still yield a duplicate-free list. -/
theorem expandAll_nodup_witness :
    ((expandAll [] [[recA], [recA, recB]]).map (fun r => r.imdbId)).Nodup :=
  expandAll_nodup [] [[recA], [recA, recB]] (by decide) (by decide)

/-! ## C6 — degradation on generation failure -/

/-- A fresh history row is served by the repository. -/
theorem getHistory_of_fresh {db : CacheDB} {now : Int} {u : String}
    {hrow : HistoryCacheRow} (h : db.history_cache u = some hrow)
    (hfresh : now - hrow.updated_at < CACHE_TTL.history) :
    db.getHistory now u = some hrow.data := by
  unfold CacheDB.getHistory
  rw [h]
  simp [isValid, hfresh]

/-- An expired history row is treated as absent by the repository. -/
theorem getHistory_of_stale {db : CacheDB} {now : Int} {u : String}
    {hrow : HistoryCacheRow} (h : db.history_cache u = some hrow)
    (hstale : ¬ now - hrow.updated_at < CACHE_TTL.history) :
    db.getHistory now u = none := by
  unfold CacheDB.getHistory
  rw [h]
  simp [isValid, hstale]

/-- With a fresh snapshot in the store, `getWatchHistory` serves it and never
consults the provider. -/
theorem getWatchHistory_of_fresh {db : CacheDB} {now : Int} {u : String}
    {hrow : HistoryCacheRow} (h : db.history_cache u = some hrow)
    (hfresh : now - hrow.updated_at < CACHE_TTL.history)
    (fetch : Except String (List WatchHistoryItem)) :
    getWatchHistory db now u fetch = .ok (hrow.data, db) := by
  unfold getWatchHistory
  rw [getHistory_of_fresh h hfresh]

/-- C6 (counterexample): category `"top"` of `"user1"` has two cached items
and a fresh history snapshot; the page needs 15 items, so `getCatalog` calls
the backend synchronously, and the backend fails.  The handler's catch block
(catalog.ts lines 200–202) returns the single `AI error:` placeholder entry —
not the two already-cached items the claim promises. -/
theorem getCatalog_generation_error_counterexample :
    (getCatalog idHash dbCachedRecs 1000 true "user1" "movie" "top" 0
        (.error "trakt down") (.error "boom")).1
      = createFallbackCatalog "AI error: boom" ∧
    (getCatalog idHash dbCachedRecs 1000 true "user1" "movie" "top" 0
        (.error "trakt down") (.error "boom")).1
      ≠ recommendationsToMetas [recA, recB] "movie" := by
  exact ⟨rfl, by decide⟩

/-- C6 (amended): whenever some items are cached for the key but fewer than
the page needs and the synchronous expansion fails with a generation error,
`getCatalog` neither propagates the error nor serves the cached items: it
returns the single `AI error:` placeholder page, and the store (including the
cached recommendation row) is left unchanged. -/
theorem getCatalog_generation_error_returns_placeholder
    (hash : String → String) (db : CacheDB) (now : Int) (u ct c : String)
    (skip : Nat) (hrow : HistoryCacheRow)
    (fetch : Except String (List WatchHistoryItem)) (msg : String)
    (h : db.history_cache u = some hrow)
    (hfresh : now - hrow.updated_at < CACHE_TTL.history)
    (hne : hrow.data ≠ [])
    (hneed : ((db.getRecommendations hash now (catalogCacheKey u c) hrow.data).getD
        []).length < skip + PAGE_SIZE) :
    getCatalog hash db now true u ct c skip fetch (.error msg)
      = (createFallbackCatalog ("AI error: " ++ msg), db) := by
  unfold getCatalog
  rw [getWatchHistory_of_fresh h hfresh]
  simp only [Bool.not_true, generateBatchStep]
  rw [if_neg (by simp)]
  rw [if_neg (by simpa using hne)]
  rw [if_pos (by simpa using hneed)]

/-- C6 (witness): the amended theorem applied at the concrete store with two
cached items and a failing backend. -/
theorem getCatalog_generation_error_returns_placeholder_witness :
    getCatalog idHash dbCachedRecs 1000 true "user1" "movie" "top" 0
        (.error "trakt down") (.error "boom")
      = (createFallbackCatalog "AI error: boom", dbCachedRecs) :=
  getCatalog_generation_error_returns_placeholder idHash dbCachedRecs 1000
    "user1" "movie" "top" 0 { data := [sampleItem], updated_at := 1000 }
    (.error "trakt down") "boom" rfl (by decide) (by decide) (by decide)

/-! ## C8 — stale-history tolerance -/

/-- With only an expired snapshot in the store, a provider failure propagates
out of `getWatchHistory` (catalog.ts line 228 throws before `setHistory`). -/
theorem getWatchHistory_stale_error {db : CacheDB} {now : Int} {u : String}
    {hrow : HistoryCacheRow} (h : db.history_cache u = some hrow)
    (hstale : ¬ now - hrow.updated_at < CACHE_TTL.history) (e : String) :
    getWatchHistory db now u (.error e) = .error e := by
  unfold getWatchHistory
  rw [getHistory_of_stale h hstale]

/-- C8 (counterexample): `"user1"` has a prior snapshot written at time 0; at
`now = 3600` its age equals the one-hour history TTL, so `getHistory` treats
it as absent, the Trakt fetch is attempted and fails, and `getCatalog` returns
the `Trakt error:` placeholder page — the request is not served from the prior
snapshot.  (The snapshot row itself is left in place.) -/
theorem getCatalog_stale_history_counterexample :
    (getCatalog idHash dbStaleHistory 3600 true "user1" "movie" "top" 0
        (.error "trakt down") (.ok { recommendations := [recA], analysis := none })).1
      = createFallbackCatalog "Trakt error: trakt down" ∧
    (getCatalog idHash dbStaleHistory 3600 true "user1" "movie" "top" 0
        (.error "trakt down") (.ok { recommendations := [recA], analysis := none })).2.history_cache
        "user1" = some { data := [sampleItem], updated_at := 0 } := by
  exact ⟨rfl, rfl⟩

/-- C8 (amended): a prior snapshot within the history TTL is served without
consulting the provider, so a provider failure cannot affect the request; but
a snapshot older than the TTL is never served: when the fetch fails, the
request returns the `Trakt error:` placeholder page (the stale snapshot row is
left in place in the store — the whole store is returned unchanged — it is
just not used to serve the page). -/
theorem getCatalog_stale_history_behavior (hash : String → String) (db : CacheDB)
    (now : Int) (u ct c : String) (skip : Nat) (hrow : HistoryCacheRow)
    (h : db.history_cache u = some hrow) :
    (now - hrow.updated_at < CACHE_TTL.history →
      ∀ f1 f2 resp, getCatalog hash db now true u ct c skip f1 resp
        = getCatalog hash db now true u ct c skip f2 resp) ∧
    (¬ now - hrow.updated_at < CACHE_TTL.history →
      ∀ e resp, getCatalog hash db now true u ct c skip (.error e) resp
        = (createFallbackCatalog ("Trakt error: " ++ e), db)) := by
  constructor
  · intro hfresh f1 f2 resp
    unfold getCatalog
    rw [getWatchHistory_of_fresh h hfresh f1, getWatchHistory_of_fresh h hfresh f2]
  · intro hstale e resp
    unfold getCatalog
    rw [getWatchHistory_stale_error h hstale e]
    rfl

/-- C8 (witness): the amended theorem applied to the stale store at the
concrete failing fetch. -/
theorem getCatalog_stale_history_behavior_witness :
    getCatalog idHash dbStaleHistory 3600 true "user1" "movie" "top" 0
        (.error "down") (.ok { recommendations := [recA], analysis := none })
      = (createFallbackCatalog "Trakt error: down", dbStaleHistory) :=
  (getCatalog_stale_history_behavior idHash dbStaleHistory 3600 "user1" "movie"
      "top" 0 { data := [sampleItem], updated_at := 0 } rfl).2 (by decide) "down"
    (.ok { recommendations := [recA], analysis := none })

/-! ## C9 — empty-page sentinel -/

/-- C9 (counterexample): `"user1"` has a fresh, nonempty history and no cached
recommendations; the backend succeeds but produces zero items.  The final
slice `[0, 15)` of the accumulated (empty) list is empty, and `getCatalog`
returns the empty list — not a single placeholder entry. -/
theorem getCatalog_empty_slice_counterexample :
    (getCatalog idHash dbFreshHistoryOnly 1000 true "user1" "movie" "top" 0
        (.error "trakt down") (.ok { recommendations := [], analysis := none })).1
      = ([] : List StremioMeta) := by
  rfl

/-- C9 (amended): the single placeholder entry is produced when the resolved
history is empty (and, per the other error paths, on failures); when history
is nonempty and the synchronous expansion succeeds, `getCatalog` returns
exactly the slice `[skip, skip + PAGE_SIZE)` of the accumulated list, which is
the empty list — not a placeholder — when that slice is empty. -/
theorem getCatalog_placeholder_scope (hash : String → String) (db : CacheDB)
    (now : Int) (u ct c : String) (skip : Nat)
    (fetch : Except String (List WatchHistoryItem)) (hrow : HistoryCacheRow)
    (h : db.history_cache u = some hrow)
    (hfresh : now - hrow.updated_at < CACHE_TTL.history) :
    (hrow.data = [] →
      ∀ resp, getCatalog hash db now true u ct c skip fetch resp
        = (createFallbackCatalog
            "No watch history found. Watch some content on Trakt first!", db)) ∧
    (hrow.data ≠ [] →
      ∀ resp : ProviderResponse,
        (getCatalog hash db now true u ct c skip fetch (.ok resp)).1
          = recommendationsToMetas
              (sliceJS
                (if ((db.getRecommendations hash now (catalogCacheKey u c)
                        hrow.data).getD []).length < skip + PAGE_SIZE
                 then expandOnce
                    ((db.getRecommendations hash now (catalogCacheKey u c)
                        hrow.data).getD []) resp.recommendations
                 else (db.getRecommendations hash now (catalogCacheKey u c)
                        hrow.data).getD [])
                skip (skip + PAGE_SIZE)) ct) := by
  constructor
  · intro hdata resp
    unfold getCatalog
    rw [getWatchHistory_of_fresh h hfresh fetch]
    simp [hdata]
  · intro hdata resp
    unfold getCatalog
    rw [getWatchHistory_of_fresh h hfresh fetch]
    simp only [Bool.not_true, generateBatchStep, generateBatchSuccess, expandOnce]
    rw [if_neg (by simp)]
    rw [if_neg (by simpa using hdata)]
    by_cases hc : ((db.getRecommendations hash now (catalogCacheKey u c)
        hrow.data).getD []).length < skip + PAGE_SIZE
    · rw [if_pos (by simpa using hc), if_pos hc]
    · rw [if_neg (by simpa using hc), if_neg hc]

/-- C9 (witness): the amended theorem's empty-history conjunct applied to the
store holding a fresh empty snapshot. -/
theorem getCatalog_placeholder_scope_witness :
    getCatalog idHash dbEmptyHistory 1000 true "user1" "movie" "top" 0
        (.error "trakt down") (.ok { recommendations := [recA], analysis := none })
      = (createFallbackCatalog
          "No watch history found. Watch some content on Trakt first!",
         dbEmptyHistory) :=
  (getCatalog_placeholder_scope idHash dbEmptyHistory 1000 "user1" "movie" "top" 0
      (.error "trakt down") { data := [], updated_at := 1000 } rfl (by decide)).1
    rfl (.ok { recommendations := [recA], analysis := none })

/-! ## C10 — user-independence of similar-to results -/

/-- A fresh row whose fingerprint matches the digest of the given history is
served by the repository. -/
theorem getRecommendations_of_valid {hash : String → String} {db : CacheDB}
    {now : Int} {key : String} {row : RecommendationCacheRow}
    {hist : List WatchHistoryItem}
    (h : db.recommendation_cache key = some row)
    (hfresh : now - row.updated_at < CACHE_TTL.recommendations)
    (hh : row.history_hash = hashHistory hash hist) :
    db.getRecommendations hash now key hist = some row.data := by
  unfold CacheDB.getRecommendations
  rw [h]
  simp [isValid, hfresh, hh]

/-- Writes to one recommendation row leave every other row unchanged. -/
theorem setRecommendations_frame {hash : String → String} {db : CacheDB}
    {now : Int} {key : String} {recs : List Recommendation}
    {hist : List WatchHistoryItem} {k : String} (hk : k ≠ key) :
    (db.setRecommendations hash now key recs hist).recommendation_cache k
      = db.recommendation_cache k := by
  unfold CacheDB.setRecommendations
  simp [hk]

/-- C10: `getSimilar` reads and writes the recommendation cache only under the
shared key `similar:<sourceImdbId>` with the empty history list.  Given a
cached row for that key carrying the empty-history fingerprint (exactly what a
previous `getSimilar` stored) that is within the TTL and nonempty:
(1) any two callers — any source title string and any provider outcome, i.e.
any two users' configurations — receive identical results and leave the store
untouched; (2) every such caller is served the shared cached list; (3) the
row is usable at a time `now2` precisely when `now2 - updated_at` is within
the recommendation TTL — the fingerprint comparison always succeeds, so no
user's watch-history change can invalidate it; (4) for every store and every
caller, keys other than `similar:<sourceImdbId>` (in particular every
per-user catalog key) are never written by `getSimilar`. -/
theorem getSimilar_shared_across_users (hash : String → String) (db : CacheDB)
    (now : Int) (srcId ct : String) (row : RecommendationCacheRow)
    (hrow : db.recommendation_cache (similarCacheKey srcId) = some row)
    (hfp : row.history_hash = hashHistory hash [])
    (hfresh : now - row.updated_at < CACHE_TTL.recommendations)
    (hne : row.data ≠ []) :
    (∀ t1 t2 r1 r2, getSimilar hash db now srcId t1 ct r1
        = getSimilar hash db now srcId t2 ct r2) ∧
    (∀ t r, getSimilar hash db now srcId t ct r
        = (recommendationsToMetas row.data ct, db)) ∧
    (∀ now2 : Int,
        db.getRecommendations hash now2 (similarCacheKey srcId) [] = some row.data
          ↔ now2 - row.updated_at < CACHE_TTL.recommendations) ∧
    (∀ (db2 : CacheDB) (t : String) (r : Except String ProviderResponse)
        (k : String), k ≠ similarCacheKey srcId →
        (getSimilar hash db2 now srcId t ct r).2.recommendation_cache k
            = db2.recommendation_cache k ∧
        (getSimilar hash db2 now srcId t ct r).2.history_cache k
            = db2.history_cache k) := by
  have hit : ∀ t r, getSimilar hash db now srcId t ct r
      = (recommendationsToMetas row.data ct, db) := by
    intro t r
    simp only [getSimilar, getRecommendations_of_valid hrow hfresh hfp]
    rw [if_pos (List.length_pos.mpr hne)]
  refine ⟨fun t1 t2 r1 r2 => (hit t1 r1).trans (hit t2 r2).symm, hit, ?_, ?_⟩
  · intro now2
    constructor
    · intro hsome
      by_cases hv : now2 - row.updated_at < CACHE_TTL.recommendations
      · exact hv
      · unfold CacheDB.getRecommendations at hsome
        rw [hrow] at hsome
        simp [isValid, hv] at hsome
    · intro hv
      exact getRecommendations_of_valid hrow hv hfp
  · intro db2 t r k hk
    simp only [getSimilar]
    cases hc : db2.getRecommendations hash now (similarCacheKey srcId) [] with
    | none =>
      simp only [hc]
      cases r with
      | error e => exact ⟨rfl, rfl⟩
      | ok resp => exact ⟨setRecommendations_frame hk, rfl⟩
    | some l =>
      simp only [hc]
      by_cases hl : l.length > 0
      · rw [if_pos hl]
        exact ⟨rfl, rfl⟩
      · rw [if_neg hl]
        cases r with
        | error e => exact ⟨rfl, rfl⟩
        | ok resp => exact ⟨setRecommendations_frame hk, rfl⟩

/-- C10 (witness): the theorem applied to the store holding the shared
similar-to row; a caller with a failing provider (e.g. a user with no
credentials at all) is still served the shared cached list. -/
theorem getSimilar_shared_across_users_witness :
    getSimilar idHash dbSharedSimilar 500 "tt0068646" "The Godfather" "movie"
        (.error "no creds")
      = (recommendationsToMetas [recA] "movie", dbSharedSimilar) :=
  ((getSimilar_shared_across_users idHash dbSharedSimilar 500 "tt0068646" "movie"
      { data := [recA], history_hash := hashHistory idHash [], updated_at := 500 }
      rfl rfl (by decide) (by decide)).2.1 "The Godfather" (.error "no creds"))

end Sannsvar
